import Mathlib

/-!
Shallow embedding of the SCSI media-changer control program (mchanger.c /
xl1b_changer.c): byte-level response parsing, the element-map discovery
algorithm with pagination and firmware-quirk compensation, and the
load/unload/eject move orchestration, modelled as pure functions over an
explicit device oracle that records the trace of issued commands.
-/

namespace MchangerModel

/-- Read one byte of a response buffer; C buffers are `uint8_t[alloc]`,
zero-initialised by `calloc`/`memset`, so out-of-range reads yield 0 and
every value is reduced mod 256. -/
def byteAt (buf : List Nat) (i : Nat) : Nat := buf.getD i 0 % 256

/-- Big-endian 16-bit read: `(buf[i] << 8) | buf[i+1]`. -/
def be16 (buf : List Nat) (i : Nat) : Nat := byteAt buf i * 256 + byteAt buf (i + 1)

/-- Big-endian 24-bit read: `(buf[i] << 16) | (buf[i+1] << 8) | buf[i+2]`. -/
def be24 (buf : List Nat) (i : Nat) : Nat :=
  byteAt buf i * 65536 + byteAt buf (i + 1) * 256 + byteAt buf (i + 2)

/-- `true` when the `n` bytes starting at `offset` are all zero
(the all-zero storage-descriptor filler test in `parse_element_status_map`). -/
def allZero (buf : List Nat) (offset n : Nat) : Bool :=
  (List.range n).all (fun i => byteAt buf (offset + i) == 0)

/-- The per-role address lists of `ElementMap` (mchanger.c / xl1b_changer.c):
growable arrays of `uint16_t` element addresses, discovery order preserved. -/
structure ElementMap where
  transports : List Nat
  slots : List Nat
  ie : List Nat
  drives : List Nat
deriving DecidableEq, Repr

/-- The `ElementMap map = {0}` initialiser. -/
def ElementMap.empty : ElementMap := ⟨[], [], [], []⟩

/-- `element_list_push` into the role list selected by the type nibble
(1 = transport, 2 = storage, 3 = import/export, 4 = drive; others ignored). -/
def pushElem (etype addr : Nat) (m : ElementMap) : ElementMap :=
  if etype = 1 then { m with transports := m.transports ++ [addr] }
  else if etype = 2 then { m with slots := m.slots ++ [addr] }
  else if etype = 3 then { m with ie := m.ie ++ [addr] }
  else if etype = 4 then { m with drives := m.drives ++ [addr] }
  else m

/-- Componentwise concatenation of two element maps. -/
def mapAppend (m d : ElementMap) : ElementMap :=
  ⟨m.transports ++ d.transports, m.slots ++ d.slots, m.ie ++ d.ie, m.drives ++ d.drives⟩

/-- Inner descriptor loop of `parse_element_status_map` (mchanger.c):
`while (offset + desc_len <= page_end)`, stopping on `desc_len < 2`,
skipping all-zero storage descriptors at address 0x0000, and pushing each
element address into the role list of the page's type nibble.  The fuel
argument only bounds the recursion; each iteration advances `offset` by
`descLen ≥ 2`, so `pageEnd + 1` fuel is always enough. -/
def parsePage (buf : List Nat) (etype descLen pageEnd : Nat) :
    Nat → ElementMap → Nat → Nat × ElementMap
  | _, m, 0 => (0, m) -- unreachable with sufficient fuel
  | offset, m, fuel + 1 =>
    if offset + descLen ≤ pageEnd then
      if descLen < 2 then (pageEnd, m)
      else
        let elemAddr := be16 buf offset
        if etype = 2 ∧ elemAddr = 0 ∧ allZero buf offset descLen then
          parsePage buf etype descLen pageEnd (offset + descLen) m fuel
        else
          parsePage buf etype descLen pageEnd (offset + descLen) (pushElem etype elemAddr m) fuel
    else (offset, m)

/-- Outer page loop of `parse_element_status_map`: reads each 8-byte page
sub-header (`type = buf[offset] & 0x0F`, descriptor length at bytes 2–3,
24-bit page byte count at bytes 5–7), stops on `desc_len == 0 or
page_byte_count == 0` or buffer exhaustion, clamps the page end to `len`,
and resynchronises `offset` to the page end. -/
def parsePages (buf : List Nat) (len : Nat) : Nat → ElementMap → Nat → ElementMap
  | _, m, 0 => m -- unreachable with sufficient fuel
  | offset, m, fuel + 1 =>
    if offset + 8 ≤ len then
      let etype := byteAt buf offset % 16
      let descLen := be16 buf (offset + 2)
      let pageBytes := be24 buf (offset + 5)
      if descLen = 0 ∨ pageBytes = 0 then m
      else
        let pageEnd := min (offset + 8 + pageBytes) len
        let r := parsePage buf etype descLen pageEnd (offset + 8) m (pageEnd + 1)
        let off3 := if r.1 < pageEnd then pageEnd else r.1
        parsePages buf len off3 r.2 fuel
    else m

/-- `parse_element_status_map(buf, len, map)` (mchanger.c): returns the map
extended with the parsed elements together with the C function's boolean
result (`true` iff the final map holds at least one element). -/
def parse_element_status_map (buf : List Nat) (len : Nat) (m : ElementMap) :
    Bool × ElementMap :=
  if len < 8 then (false, m)
  else
    let m2 := parsePages buf len 8 m (len + 1)
    (decide (0 < m2.transports.length + m2.slots.length + m2.drives.length + m2.ie.length), m2)

/-- The SCSI commands issued by the program, as structured CDB values:
READ ELEMENT STATUS (element-type nibble, start address, count, allocation),
MODE SENSE(10) for page 0x1D (allocation), and MOVE MEDIUM (transport,
source, destination addresses). -/
inductive Cdb where
  | readES (etype start count alloc : Nat)
  | modeSense1D (alloc : Nat)
  | moveMedium (transport source dest : Nat)
deriving DecidableEq, Repr

/-- A device behaviour: given the history of commands issued so far and the
next command, produce the `execute_cdb` return code (0 = success) and the
bytes the device writes into the response buffer. -/
def Device := List Cdb → Cdb → Nat × List Nat

/-- Issue one command: consult the device and append the command to the
trace of issued commands. -/
def execCdb (dev : Device) (tr : List Cdb) (c : Cdb) : Nat × List Nat × List Cdb :=
  ((dev tr c).1, (dev tr c).2, tr ++ [c])

/-- `true` exactly on MOVE MEDIUM commands. -/
def isMove : Cdb → Bool
  | .moveMedium _ _ _ => true
  | _ => false

/-- `true` exactly on READ ELEMENT STATUS commands with element type
"all" (nibble 0). -/
def isAllTypesRES : Cdb → Bool
  | .readES 0 _ _ _ => true
  | _ => false

/-- The "all types" READ ELEMENT STATUS issued by `fetch_element_map`:
type 0, start 0, count 0xFFFF, allocation 65535. -/
def allTypesCdb : Cdb := Cdb.readES 0 0 65535 65535

/-- The MODE SENSE(10) page 0x1D command of `read_mode_sense_element`
(allocation 256). -/
def modeSenseCdb : Cdb := Cdb.modeSense1D 256

/-- The "all types" READ ELEMENT STATUS issued by
`read_element_status_info`: type 0, start 0, count 0xFFFF, allocation 4096. -/
def statusCdb : Cdb := Cdb.readES 0 0 65535 4096

/-- `ElementAddrAssignment` (mchanger.c): the four (first address, count)
pairs of MODE SENSE page 0x1D. -/
structure ElementAddrAssignment where
  first_transport : Nat
  num_transport : Nat
  first_storage : Nat
  num_storage : Nat
  first_ie : Nat
  num_ie : Nat
  first_drive : Nat
  num_drive : Nat
deriving DecidableEq, Repr

/-- The `ElementAddrAssignment assign = {0}` initialiser. -/
def ElementAddrAssignment.zero : ElementAddrAssignment := ⟨0, 0, 0, 0, 0, 0, 0, 0⟩

/-- `read_mode_sense_element(handle, out, print)` (mchanger.c): issues MODE
SENSE(10) page 0x1D with a 256-byte allocation, locates the page at
`8 + block_descriptor_length`, and on page code 0x1D with length ≥ 16 reads
the four (first, count) big-endian pairs.  On a transport failure the rc is
propagated; an out-of-range page offset yields rc 1; an unrecognized page
yields rc 0 with the caller's zero-initialised assignment left unchanged. -/
def read_mode_sense_element (dev : Device) (tr : List Cdb) :
    Nat × ElementAddrAssignment × List Cdb :=
  let e := execCdb dev tr modeSenseCdb
  if e.1 ≠ 0 then (e.1, ElementAddrAssignment.zero, e.2.2)
  else
    let buf := e.2.1
    let blockDescLen := be16 buf 6
    let pageOffset := 8 + blockDescLen
    if pageOffset + 2 > 256 then (1, ElementAddrAssignment.zero, e.2.2)
    else
      let pageCode := byteAt buf pageOffset % 64
      let pageLen := byteAt buf (pageOffset + 1)
      if pageCode ≠ 29 ∨ pageLen < 16 then (0, ElementAddrAssignment.zero, e.2.2)
      else
        let p := pageOffset + 2
        (0,
         { first_transport := be16 buf p, num_transport := be16 buf (p + 2),
           first_storage := be16 buf (p + 4), num_storage := be16 buf (p + 6),
           first_ie := be16 buf (p + 8), num_ie := be16 buf (p + 10),
           first_drive := be16 buf (p + 12), num_drive := be16 buf (p + 14) },
         e.2.2)

/-- The per-element status record of `read_element_status_info`
(`ElementStatus` in mchanger.c): address, full flag (bit 0x01 of descriptor
byte 2), source-valid flag (bit 0x80 of descriptor byte 9, descriptors of
length ≥ 12 only) and big-endian source address (descriptor bytes 10–11). -/
structure ElementStatus where
  addr : Nat
  full : Bool
  valid_src : Bool
  src_addr : Nat
deriving DecidableEq, Repr

/-- The initial value written into an output of
`read_element_status_info`: the queried address with all flags clear. -/
def ElementStatus.init (a : Nat) : ElementStatus := ⟨a, false, false, 0⟩

/-- Update one status output when the descriptor's element address matches
the queried address (the `if (elem_addr == ...)` body). -/
def updSt (matchAddr : Nat) (st : ElementStatus) (elemAddr : Nat)
    (full svalid : Bool) (src : Nat) : ElementStatus :=
  if elemAddr = matchAddr then { st with full := full, valid_src := svalid, src_addr := src }
  else st

/-- Inner descriptor loop of `read_element_status_info`: scans fixed-size
descriptors (no type filtering, no zero-descriptor skipping), decoding
full (bit 0x01 of byte 2) and, for descriptors of length ≥ 12, the
source-valid bit and source address, updating whichever queried element
matches.  Fuel-bounded as in `parsePage`. -/
def scanDescs (buf : List Nat) (descLen pageEnd driveAddr slotAddr : Nat) :
    Nat → ElementStatus → ElementStatus → Nat → Nat × ElementStatus × ElementStatus
  | offset, dst, sst, 0 => (offset, dst, sst)
  | offset, dst, sst, fuel + 1 =>
    if offset + descLen ≤ pageEnd then
      let elemAddr := be16 buf offset
      let full := byteAt buf (offset + 2) % 2 == 1
      let svalid := if 12 ≤ descLen then byteAt buf (offset + 9) / 128 % 2 == 1 else false
      let src := if 12 ≤ descLen then be16 buf (offset + 10) else 0
      scanDescs buf descLen pageEnd driveAddr slotAddr (offset + descLen)
        (updSt driveAddr dst elemAddr full svalid src)
        (updSt slotAddr sst elemAddr full svalid src) fuel
    else (offset, dst, sst)

/-- Outer page loop of `read_element_status_info`: same page sub-header
decoding and stop conditions as `parsePages`, threading the two status
outputs through `scanDescs`. -/
def scanPages (buf : List Nat) (len driveAddr slotAddr : Nat) :
    Nat → ElementStatus → ElementStatus → Nat → ElementStatus × ElementStatus
  | _, dst, sst, 0 => (dst, sst)
  | offset, dst, sst, fuel + 1 =>
    if offset + 8 ≤ len then
      let descLen := be16 buf (offset + 2)
      let pageBytes := be24 buf (offset + 5)
      if descLen = 0 ∨ pageBytes = 0 then (dst, sst)
      else
        let pageEnd := min (offset + 8 + pageBytes) len
        let r := scanDescs buf descLen pageEnd driveAddr slotAddr (offset + 8) dst sst (pageEnd + 1)
        let off3 := if r.1 < pageEnd then pageEnd else r.1
        scanPages buf len driveAddr slotAddr off3 r.2.1 r.2.2 fuel
    else (dst, sst)

/-- `read_element_status_info(handle, drive_addr, drive_status, slot_addr,
slot_status)` (mchanger.c): one "all types" READ ELEMENT STATUS with a
4096-byte allocation, then a scan of the whole allocation for the two
queried element addresses.  Returns (rc, drive status, slot status, trace). -/
def read_element_status_info (dev : Device) (tr : List Cdb)
    (driveAddr slotAddr : Nat) : Nat × ElementStatus × ElementStatus × List Cdb :=
  let e := execCdb dev tr statusCdb
  if e.1 ≠ 0 then (e.1, ElementStatus.init driveAddr, ElementStatus.init slotAddr, e.2.2)
  else
    let r := scanPages e.2.1 4096 driveAddr slotAddr 8
      (ElementStatus.init driveAddr) (ElementStatus.init slotAddr) 4097
    (0, r.1, r.2, e.2.2)

/-- Storage pagination loop of `fetch_element_map` (mchanger.c): issues
storage-only READ ELEMENT STATUS queries starting at the declared first
address, parses each page into the map, advances the 16-bit start address
by the number of newly returned storage elements, and stops on a transport
error, an empty report, a page adding zero new elements, or exhaustion of
the remaining count.  The fuel starts at the declared count; `remaining`
strictly decreases, so the fuel never runs out before the loop stops. -/
def paginateSlots (dev : Device) (alloc : Nat) :
    Nat → Nat → ElementMap → List Cdb → Nat → ElementMap × List Cdb
  | _, _, m, tr, 0 => (m, tr)
  | startAddr, remaining, m, tr, fuel + 1 =>
    if remaining = 0 then (m, tr)
    else
      let e := execCdb dev tr (Cdb.readES 2 startAddr remaining alloc)
      if e.1 ≠ 0 then (m, e.2.2)
      else
        let reportBytes := be24 e.2.1 5
        if reportBytes = 0 then (m, e.2.2)
        else
          let parseLen := if reportBytes + 8 ≤ alloc then reportBytes + 8 else alloc
          let m2 := (parse_element_status_map e.2.1 parseLen m).2
          let added := m2.slots.length - m.slots.length
          if added = 0 then (m2, e.2.2)
          else if remaining ≤ added then (m2, e.2.2)
          else paginateSlots dev alloc ((startAddr + added % 65536) % 65536)
            (remaining - added) m2 e.2.2 fuel

/-- Quirk-compensation step of `fetch_element_map`: when the discovered
storage list is still shorter than the MODE SENSE declared count, append
the 16-bit addresses from `first + count` (`actual_end`) up to, but not
including, `first + num` (`expected_end`), both computed in `uint16_t`
arithmetic. -/
def fillMissingSlots (first num : Nat) (slots : List Nat) : List Nat :=
  if slots.length < num then
    let expectedEnd := (first + num) % 65536
    let actualEnd := (first + slots.length % 65536) % 65536
    slots ++ List.range' actualEnd (expectedEnd - actualEnd)
  else slots

/-- `fetch_element_map(handle, map)` (mchanger.c): one "all types" READ
ELEMENT STATUS with a 65535-byte allocation parsed with length clamped to
`min(report_bytes + 8, alloc)`; then, whenever MODE SENSE page 0x1D
succeeds with a nonzero declared storage count, the storage list is
cleared and rebuilt by `paginateSlots` and topped up by
`fillMissingSlots`.  Returns 0 iff at least one element was discovered. -/
def fetch_element_map (dev : Device) (m : ElementMap) (tr : List Cdb) :
    Nat × ElementMap × List Cdb :=
  let e := execCdb dev tr allTypesCdb
  if e.1 ≠ 0 then (e.1, m, e.2.2)
  else
    let reportBytes := be24 e.2.1 5
    if reportBytes = 0 then (1, m, e.2.2)
    else
      let parseLen := if reportBytes + 8 ≤ 65535 then reportBytes + 8 else 65535
      let m1 := (parse_element_status_map e.2.1 parseLen m).2
      let ms := read_mode_sense_element dev e.2.2
      let r :=
        if ms.1 = 0 ∧ 0 < ms.2.1.num_storage then
          let p := paginateSlots dev 65535 ms.2.1.first_storage ms.2.1.num_storage
            { m1 with slots := [] } ms.2.2 ms.2.1.num_storage
          ({ p.1 with slots := fillMissingSlots ms.2.1.first_storage ms.2.1.num_storage p.1.slots },
           p.2)
        else (m1, ms.2.2)
      (if 0 < r.1.transports.length + r.1.slots.length + r.1.drives.length + r.1.ie.length
       then 0 else 1, r.1, r.2)

/-- `MCHANGER_OK` (mchanger.h). -/
def MCHANGER_OK : Int := 0

/-- `MCHANGER_ERR_SCSI` (mchanger.h). -/
def MCHANGER_ERR_SCSI : Int := -3

/-- `MCHANGER_ERR_INVALID` (mchanger.h). -/
def MCHANGER_ERR_INVALID : Int := -4

/-- `MCHANGER_ERR_EMPTY` (mchanger.h). -/
def MCHANGER_ERR_EMPTY : Int := -6

/-- The public `MChangerElementStatus` (mchanger.h): address, full,
exception flag, source-valid flag and source address. -/
structure MChangerElementStatus where
  address : Nat
  full : Bool
  except : Bool
  valid_source : Bool
  source_addr : Nat
deriving DecidableEq, Repr

/-- `mchanger_load_slot(changer, slot, drive)` (mchanger.c), which forwards
to `mchanger_load_slot_verbose` with no callback: validates the 1-based
indices, discovers the element map, reads the drive and slot statuses, and
then either succeeds as a no-op (slot empty, drive full with valid source
equal to the slot address), fails Empty (slot empty and medium not sourced
from it), or unloads a full drive to its recorded source (falling back to
the target slot) before moving the slot's medium into the drive.  Returns
the result code and the trace of issued commands. -/
def mchanger_load_slot (dev : Device) (slot drive : Int) : Int × List Cdb :=
  if slot < 1 ∨ drive < 1 then (MCHANGER_ERR_INVALID, [])
  else
    let f := fetch_element_map dev ElementMap.empty []
    if f.1 ≠ 0 then (MCHANGER_ERR_SCSI, f.2.2)
    else if (f.2.1.slots.length : Int) < slot ∨ (f.2.1.drives.length : Int) < drive then
      (MCHANGER_ERR_INVALID, f.2.2)
    else
      let transport := f.2.1.transports.headD 0
      let slotAddr := f.2.1.slots.getD (slot.toNat - 1) 0
      let driveAddr := f.2.1.drives.getD (drive.toNat - 1) 0
      let r := read_element_status_info dev f.2.2 driveAddr slotAddr
      if r.1 ≠ 0 then (MCHANGER_ERR_SCSI, r.2.2.2)
      else
        let dst := r.2.1
        let sst := r.2.2.1
        let tr1 := r.2.2.2
        if sst.full = false ∧ dst.full = true ∧ dst.valid_src = true ∧ dst.src_addr = slotAddr then
          (MCHANGER_OK, tr1)
        else if sst.full = false ∧
            ¬(dst.full = true ∧ dst.valid_src = true ∧ dst.src_addr = slotAddr) then
          (MCHANGER_ERR_EMPTY, tr1)
        else if dst.full = true then
          let unloadAddr := if dst.valid_src = true then dst.src_addr else slotAddr
          let u := execCdb dev tr1 (Cdb.moveMedium transport driveAddr unloadAddr)
          if u.1 ≠ 0 then (MCHANGER_ERR_SCSI, u.2.2)
          else
            let l := execCdb dev u.2.2 (Cdb.moveMedium transport slotAddr driveAddr)
            (if l.1 = 0 then MCHANGER_OK else MCHANGER_ERR_SCSI, l.2.2)
        else
          let l := execCdb dev tr1 (Cdb.moveMedium transport slotAddr driveAddr)
          (if l.1 = 0 then MCHANGER_OK else MCHANGER_ERR_SCSI, l.2.2)

/-- `mchanger_unload_drive(changer, slot, drive)` (mchanger.c): validates
indices against the freshly discovered map, then unconditionally issues
MOVE MEDIUM from the drive to the slot (after the host-OS eject, which is
external to this model). -/
def mchanger_unload_drive (dev : Device) (slot drive : Int) : Int × List Cdb :=
  if slot < 1 ∨ drive < 1 then (MCHANGER_ERR_INVALID, [])
  else
    let f := fetch_element_map dev ElementMap.empty []
    if f.1 ≠ 0 then (MCHANGER_ERR_SCSI, f.2.2)
    else if (f.2.1.slots.length : Int) < slot ∨ (f.2.1.drives.length : Int) < drive then
      (MCHANGER_ERR_INVALID, f.2.2)
    else
      let transport := f.2.1.transports.headD 0
      let slotAddr := f.2.1.slots.getD (slot.toNat - 1) 0
      let driveAddr := f.2.1.drives.getD (drive.toNat - 1) 0
      let u := execCdb dev f.2.2 (Cdb.moveMedium transport driveAddr slotAddr)
      (if u.1 = 0 then MCHANGER_OK else MCHANGER_ERR_SCSI, u.2.2)

/-- `mchanger_eject(changer, slot, drive)` (mchanger.c): validates indices
and requires an import/export element, reads the drive and slot statuses,
unloads the drive to the slot when the slot is empty and the drive full
(regardless of the recorded source), and then always issues MOVE MEDIUM
from the slot to the first import/export address. -/
def mchanger_eject (dev : Device) (slot drive : Int) : Int × List Cdb :=
  if slot < 1 ∨ drive < 1 then (MCHANGER_ERR_INVALID, [])
  else
    let f := fetch_element_map dev ElementMap.empty []
    if f.1 ≠ 0 then (MCHANGER_ERR_SCSI, f.2.2)
    else if (f.2.1.slots.length : Int) < slot ∨ (f.2.1.drives.length : Int) < drive ∨
        f.2.1.ie.length = 0 then
      (MCHANGER_ERR_INVALID, f.2.2)
    else
      let transport := f.2.1.transports.headD 0
      let slotAddr := f.2.1.slots.getD (slot.toNat - 1) 0
      let driveAddr := f.2.1.drives.getD (drive.toNat - 1) 0
      let ieAddr := f.2.1.ie.headD 0
      let r := read_element_status_info dev f.2.2 driveAddr slotAddr
      if r.1 ≠ 0 then (MCHANGER_ERR_SCSI, r.2.2.2)
      else
        let dst := r.2.1
        let sst := r.2.2.1
        let tr1 := r.2.2.2
        if sst.full = false ∧ dst.full = true then
          let u := execCdb dev tr1 (Cdb.moveMedium transport driveAddr slotAddr)
          if u.1 ≠ 0 then (MCHANGER_ERR_SCSI, u.2.2)
          else
            let l := execCdb dev u.2.2 (Cdb.moveMedium transport slotAddr ieAddr)
            (if l.1 = 0 then MCHANGER_OK else MCHANGER_ERR_SCSI, l.2.2)
        else
          let l := execCdb dev tr1 (Cdb.moveMedium transport slotAddr ieAddr)
          (if l.1 = 0 then MCHANGER_OK else MCHANGER_ERR_SCSI, l.2.2)

/-- The CLI `eject` command of mchanger.c's `main` (default invocation:
`dry_run = false`, `confirm = false`, no transport override): after the
map, range, import/export and transport checks it reads both statuses,
decides `disc_in_drive := !slot.full && drive.full && (!valid_src ||
src == slot)`, fails with rc 1 and no further commands when the slot is
empty and the disc is not in the drive, and otherwise issues the unload
and/or eject MOVE MEDIUM commands. -/
def cmd_eject (dev : Device) (slotIndex driveIndex : Nat) : Nat × List Cdb :=
  let f := fetch_element_map dev ElementMap.empty []
  if f.1 ≠ 0 then (f.1, f.2.2)
  else if slotIndex = 0 ∨ f.2.1.slots.length < slotIndex then (1, f.2.2)
  else if driveIndex = 0 ∨ f.2.1.drives.length < driveIndex then (1, f.2.2)
  else if f.2.1.ie.length = 0 then (1, f.2.2)
  else if f.2.1.transports.length = 0 then (1, f.2.2)
  else
    let transport := f.2.1.transports.headD 0
    let slotAddr := f.2.1.slots.getD (slotIndex - 1) 0
    let driveAddr := f.2.1.drives.getD (driveIndex - 1) 0
    let ieAddr := f.2.1.ie.headD 0
    let r := read_element_status_info dev f.2.2 driveAddr slotAddr
    if r.1 ≠ 0 then (r.1, r.2.2.2)
    else
      let dst := r.2.1
      let sst := r.2.2.1
      let tr1 := r.2.2.2
      let discInDrive := sst.full = false ∧ dst.full = true ∧
        (dst.valid_src = false ∨ dst.src_addr = slotAddr)
      if sst.full = false ∧ ¬discInDrive then (1, tr1)
      else if discInDrive then
        let u := execCdb dev tr1 (Cdb.moveMedium transport driveAddr slotAddr)
        if u.1 ≠ 0 then (u.1, u.2.2)
        else
          let l := execCdb dev u.2.2 (Cdb.moveMedium transport slotAddr ieAddr)
          (l.1, l.2.2)
      else
        let l := execCdb dev tr1 (Cdb.moveMedium transport slotAddr ieAddr)
        (l.1, l.2.2)

/-- `mchanger_get_slot_status(changer, slot, out_status)` (mchanger.c):
discovers the map, resolves the slot address (and the first drive address
for the query), reads the slot's element status, and copies it into the
public structure with the exception field hard-coded to `false`.  `none`
models the error paths on which `out_status` is not written. -/
def mchanger_get_slot_status (dev : Device) (slot : Int) :
    Int × Option MChangerElementStatus × List Cdb :=
  if slot < 1 then (MCHANGER_ERR_INVALID, none, [])
  else
    let f := fetch_element_map dev ElementMap.empty []
    if f.1 ≠ 0 then (MCHANGER_ERR_SCSI, none, f.2.2)
    else if (f.2.1.slots.length : Int) < slot then (MCHANGER_ERR_INVALID, none, f.2.2)
    else
      let slotAddr := f.2.1.slots.getD (slot.toNat - 1) 0
      let driveAddr := f.2.1.drives.headD 0
      let r := read_element_status_info dev f.2.2 driveAddr slotAddr
      if r.1 ≠ 0 then (MCHANGER_ERR_SCSI, none, r.2.2.2)
      else
        let st := r.2.2.1
        (MCHANGER_OK,
         some { address := st.addr, full := st.full, except := false,
                valid_source := st.valid_src, source_addr := st.src_addr },
         r.2.2.2)

/-- `mchanger_get_drive_status(changer, drive, out_status)` (mchanger.c):
as `mchanger_get_slot_status` but for the drive's element status (the slot
output of the query is unused, address 0). -/
def mchanger_get_drive_status (dev : Device) (drive : Int) :
    Int × Option MChangerElementStatus × List Cdb :=
  if drive < 1 then (MCHANGER_ERR_INVALID, none, [])
  else
    let f := fetch_element_map dev ElementMap.empty []
    if f.1 ≠ 0 then (MCHANGER_ERR_SCSI, none, f.2.2)
    else if (f.2.1.drives.length : Int) < drive then (MCHANGER_ERR_INVALID, none, f.2.2)
    else
      let driveAddr := f.2.1.drives.getD (drive.toNat - 1) 0
      let r := read_element_status_info dev f.2.2 driveAddr 0
      if r.1 ≠ 0 then (MCHANGER_ERR_SCSI, none, r.2.2.2)
      else
        let st := r.2.1
        (MCHANGER_OK,
         some { address := st.addr, full := st.full, except := false,
                valid_source := st.valid_src, source_addr := st.src_addr },
         r.2.2.2)

/-- A standard "all types" READ ELEMENT STATUS response: one transport
(0x0001), two storage slots (0x1000, 0x1001), one import/export (0x0300)
and one drive (0x0200), in 4-byte descriptors. -/
def allBufStd : List Nat :=
  [0, 0, 0, 0, 0, 0, 0, 52,
   1, 0, 0, 4, 0, 0, 0, 4, 0, 1, 0, 0,
   2, 0, 0, 4, 0, 0, 0, 8, 16, 0, 0, 0, 16, 1, 0, 0,
   3, 0, 0, 4, 0, 0, 0, 4, 3, 0, 0, 0,
   4, 0, 0, 4, 0, 0, 0, 4, 2, 0, 0, 0]

/-- An element-status response (12-byte descriptors) for the drive at
0x0200 and the slot at 0x1000, built from the drive's flag/byte-9/source
bytes and the slot's flag byte. -/
def mkStatusBuf (dflags d9 dsh dsl sflags : Nat) : List Nat :=
  [0, 0, 0, 0, 0, 0, 0, 32,
   0, 0, 0, 12, 0, 0, 0, 24,
   2, 0, dflags, 0, 0, 0, 0, 0, 0, d9, dsh, dsl,
   16, 0, sflags, 0, 0, 0, 0, 0, 0, 0, 0, 0]

/-- Status response: drive full with valid source 0x1000, slot full. -/
def stBufDriveFromSlot_slotFull : List Nat := mkStatusBuf 1 128 16 0 1

/-- Status response: drive full with valid source 0x1000, slot empty. -/
def stBufDriveFromSlot_slotEmpty : List Nat := mkStatusBuf 1 128 16 0 0

/-- Status response: drive full with valid source 0x1001, slot full. -/
def stBufDriveFromOther_slotFull : List Nat := mkStatusBuf 1 128 16 1 1

/-- Status response: drive empty, slot empty. -/
def stBufBothEmpty : List Nat := mkStatusBuf 0 0 0 0 0

/-- Status response: drive empty, slot full with its exception bit set
(flag byte 0x81). -/
def stBufSlotFullExcBit : List Nat := mkStatusBuf 0 0 0 0 129

/-- A device on which discovery sees `allBufStd`, element-status queries
see the given buffer, MODE SENSE fails (so the storage list is kept as
discovered), and MOVE MEDIUM returns the given code. -/
def simpleDev (statusBuf : List Nat) (moveRc : Nat) : Device :=
  fun _ c =>
    match c with
    | Cdb.readES 0 0 65535 65535 => (0, allBufStd)
    | Cdb.readES 0 0 65535 4096 => (0, statusBuf)
    | Cdb.modeSense1D _ => (1, [])
    | Cdb.moveMedium _ _ _ => (moveRc, [])
    | _ => (1, [])

/-- Device for the C2 counterexample: drive full, valid source = slot
address, but the slot also reports full. -/
def devC2x : Device := simpleDev stBufDriveFromSlot_slotFull 0

/-- Device for the C2 witness: drive full, valid source = slot address,
slot empty. -/
def devC2w : Device := simpleDev stBufDriveFromSlot_slotEmpty 0

/-- Device for the C3 witness: slot full, drive full with valid source
pointing at the other slot (0x1001). -/
def devC3 : Device := simpleDev stBufDriveFromOther_slotFull 0

/-- Device with both queried elements empty; used for the out-of-range and
eject scenarios. -/
def devEmptyStatus : Device := simpleDev stBufBothEmpty 0

/-- Device for the C10 witness: the slot's descriptor has both the full
bit and the exception bit set. -/
def devC10 : Device := simpleDev stBufSlotFullExcBit 0

/-- MODE SENSE page 0x1D response declaring storage first = 0x1000 with
the given count (all other roles zero). -/
def mkMsBuf (numHi numLo : Nat) : List Nat :=
  [0, 0, 0, 0, 0, 0, 0, 0,
   29, 16, 0, 0, 0, 0, 16, 0, numHi, numLo, 0, 0, 0, 0, 0, 0, 0, 0]

/-- An "all types" response reporting only the transport at 0x0001. -/
def allBufTransportOnly : List Nat :=
  [0, 0, 0, 0, 0, 0, 0, 12, 1, 0, 0, 4, 0, 0, 0, 4, 0, 1, 0, 0]

/-- A storage-only page response with one descriptor, address 0x1001. -/
def storBufAddr4097 : List Nat :=
  [0, 0, 0, 0, 0, 0, 0, 12, 2, 0, 0, 4, 0, 0, 0, 4, 16, 1, 0, 0]

/-- A storage-only page response with one descriptor, address 0x1000. -/
def storBufAddr4096 : List Nat :=
  [0, 0, 0, 0, 0, 0, 0, 12, 2, 0, 0, 4, 0, 0, 0, 4, 16, 0, 0, 0]

/-- Device for the C1 counterexample: MODE SENSE declares 2 storage
elements at 0x1000, but the storage page returns the single
non-contiguous address 0x1001. -/
def devC1 : Device :=
  fun _ c =>
    match c with
    | Cdb.readES 0 0 65535 65535 => (0, allBufTransportOnly)
    | Cdb.modeSense1D _ => (0, mkMsBuf 0 2)
    | Cdb.readES 2 4096 _ _ => (0, storBufAddr4097)
    | _ => (0, [])

/-- Device for the C6 counterexample: the all-types query already returns
2 storage elements while MODE SENSE declares only 1, and the storage-only
queries fail. -/
def devC6 : Device :=
  fun _ c =>
    match c with
    | Cdb.readES 0 0 65535 65535 => (0, allBufStd)
    | Cdb.modeSense1D _ => (0, mkMsBuf 0 1)
    | _ => (1, [])

/-- Device for the C6 witness: MODE SENSE declares 2 storage elements at
0x1000; the first storage page returns 0x1000 and the next page is empty,
so the second address is synthesized. -/
def devC6w : Device :=
  fun _ c =>
    match c with
    | Cdb.readES 0 0 65535 65535 => (0, allBufStd)
    | Cdb.modeSense1D _ => (0, mkMsBuf 0 2)
    | Cdb.readES 2 4096 _ _ => (0, storBufAddr4096)
    | _ => (0, [])

/-- Device for C7: the all-types response header declares a report byte
count of 70000, far beyond the 65535-byte allocation; everything else
fails. -/
def devC7 : Device :=
  fun _ c =>
    match c with
    | Cdb.readES 0 0 65535 65535 => (0, [0, 0, 0, 0, 0, 1, 17, 112])
    | _ => (1, [])

end MchangerModel

namespace MchangerFile

/-- `print_flags(flags)` of src/mchanger.c, as the pair of decoded booleans
(exception, full): `except = (flags & 0x80) != 0`, `full = (flags & 0x01)
!= 0`. -/
def print_flags (flags : Nat) : Bool × Bool :=
  ((flags % 256) / 128 % 2 == 1, (flags % 256) % 2 == 1)

end MchangerFile

namespace Xl1bFile

/-- `print_flags(flags)` of src/xl1b_changer.c, as the pair of decoded
booleans (exception, full): `except = (flags & 0x80) != 0`, `full =
(flags & 0x20) != 0`. -/
def print_flags (flags : Nat) : Bool × Bool :=
  ((flags % 256) / 128 % 2 == 1, (flags % 256) / 32 % 2 == 1)

end Xl1bFile

namespace MchangerModel

theorem mapAppend_empty_right (m : ElementMap) : mapAppend m ElementMap.empty = m := by
  simp [mapAppend, ElementMap.empty]

theorem mapAppend_empty_left (m : ElementMap) : mapAppend ElementMap.empty m = m := by
  simp [mapAppend, ElementMap.empty]

theorem mapAppend_assoc (a b c : ElementMap) :
    mapAppend (mapAppend a b) c = mapAppend a (mapAppend b c) := by
  simp [mapAppend]

theorem mapAppend_pushElem (t a : Nat) (m d : ElementMap) :
    mapAppend (pushElem t a m) d = mapAppend m (mapAppend (pushElem t a ElementMap.empty) d) := by
  unfold pushElem mapAppend ElementMap.empty
  split_ifs <;> simp

/-- The descriptor loop's result decomposes as the input map followed by
the elements collected from an empty map; its final offset does not depend
on the input map. -/
theorem parsePage_acc (buf : List Nat) (etype descLen pageEnd : Nat) :
    ∀ fuel offset m, parsePage buf etype descLen pageEnd offset m fuel =
      ((parsePage buf etype descLen pageEnd offset ElementMap.empty fuel).1,
       mapAppend m (parsePage buf etype descLen pageEnd offset ElementMap.empty fuel).2)
  | 0, offset, m => by simp [parsePage, mapAppend_empty_right]
  | fuel + 1, offset, m => by
    simp only [parsePage]
    split_ifs with h1 h2 h3
    · simp [mapAppend_empty_right]
    · rw [parsePage_acc buf etype descLen pageEnd fuel (offset + descLen) m]
    · rw [parsePage_acc buf etype descLen pageEnd fuel (offset + descLen)
        (pushElem etype (be16 buf offset) m),
        parsePage_acc buf etype descLen pageEnd fuel (offset + descLen)
        (pushElem etype (be16 buf offset) ElementMap.empty)]
      dsimp only
      rw [mapAppend_pushElem]
    · simp [mapAppend_empty_right]

/-- The page loop's result decomposes as the input map followed by the
elements collected from an empty map. -/
theorem parsePages_acc (buf : List Nat) (len : Nat) :
    ∀ fuel offset m, parsePages buf len offset m fuel =
      mapAppend m (parsePages buf len offset ElementMap.empty fuel)
  | 0, offset, m => by simp [parsePages, mapAppend_empty_right]
  | fuel + 1, offset, m => by
    simp only [parsePages]
    rw [parsePage_acc buf (byteAt buf offset % 16) (be16 buf (offset + 2))
      (min (offset + 8 + be24 buf (offset + 5)) len)
      (min (offset + 8 + be24 buf (offset + 5)) len + 1) (offset + 8) m]
    split_ifs with h1 h2 h3
    · simp [mapAppend_empty_right]
    · conv_rhs => rw [parsePages_acc buf len fuel]
      conv_lhs => rw [parsePages_acc buf len fuel]
      rw [mapAppend_assoc]
    · conv_rhs => rw [parsePages_acc buf len fuel]
      conv_lhs => rw [parsePages_acc buf len fuel]
      rw [mapAppend_assoc]
    · simp [mapAppend_empty_right]

/-- `parse_element_status_map` only appends: its result is the input map
followed by whatever the same bytes produce from an empty map. -/
theorem parse_element_status_map_acc (buf : List Nat) (len : Nat) (m : ElementMap) :
    (parse_element_status_map buf len m).2 =
      mapAppend m (parse_element_status_map buf len ElementMap.empty).2 := by
  unfold parse_element_status_map
  split_ifs with h
  · simp [mapAppend_empty_right]
  · exact parsePages_acc buf len (len + 1) 8 m

/-- `read_mode_sense_element` always issues exactly its MODE SENSE command. -/
theorem rms_trace (dev : Device) (tr : List Cdb) :
    (read_mode_sense_element dev tr).2.2 = tr ++ [modeSenseCdb] := by
  simp only [read_mode_sense_element, execCdb]
  split_ifs <;> rfl

/-- `read_element_status_info` always issues exactly its READ ELEMENT
STATUS command. -/
theorem resinfo_trace (dev : Device) (tr : List Cdb) (driveAddr slotAddr : Nat) :
    (read_element_status_info dev tr driveAddr slotAddr).2.2.2 = tr ++ [statusCdb] := by
  simp only [read_element_status_info, execCdb]
  split_ifs <;> rfl

/-- Commands appended by the storage pagination loop are all storage-only
READ ELEMENT STATUS commands: any filter rejecting those is unchanged. -/
theorem paginateSlots_filter (dev : Device) (alloc : Nat) (p : Cdb → Bool)
    (hp : ∀ s2 r2, p (Cdb.readES 2 s2 r2 alloc) = false) :
    ∀ fuel startAddr remaining m tr,
      ((paginateSlots dev alloc startAddr remaining m tr fuel).2).filter p = tr.filter p
  | 0, _, _, _, _ => rfl
  | fuel + 1, startAddr, remaining, m, tr => by
    simp only [paginateSlots, execCdb]
    split_ifs <;>
      first
      | rfl
      | (rw [paginateSlots_filter dev alloc p hp fuel]
         simp [List.filter_append, hp])
      | simp [List.filter_append, hp]

/-- Every command appended by the pagination loop is a storage-only READ
ELEMENT STATUS with the loop's allocation. -/
theorem paginateSlots_shape (dev : Device) (alloc : Nat) :
    ∀ fuel startAddr remaining m tr c,
      c ∈ (paginateSlots dev alloc startAddr remaining m tr fuel).2 →
      c ∈ tr ∨ ∃ s2 r2, c = Cdb.readES 2 s2 r2 alloc
  | 0, _, _, _, _, _ => fun h => Or.inl h
  | fuel + 1, startAddr, remaining, m, tr, c => by
    simp only [paginateSlots, execCdb]
    split_ifs <;> intro h <;>
      first
      | exact Or.inl h
      | exact (List.mem_append.1 h).elim (fun h2 => Or.inl h2)
          (fun h2 => Or.inr ⟨startAddr, remaining, List.mem_singleton.1 h2⟩)
      | exact (paginateSlots_shape dev alloc fuel _ _ _ _ c h).elim
          (fun h2 => (List.mem_append.1 h2).elim (fun h3 => Or.inl h3)
            (fun h3 => Or.inr ⟨startAddr, remaining, List.mem_singleton.1 h3⟩))
          (fun h2 => Or.inr h2)

/-- Filter decomposition of `fetch_element_map`'s trace: a filter that
rejects MODE SENSE and all storage-only READ ELEMENT STATUS commands sees
only the initial trace and the single all-types command. -/
theorem fetch_filter (dev : Device) (p : Cdb → Bool) (hms : p modeSenseCdb = false)
    (hst : ∀ s2 r2, p (Cdb.readES 2 s2 r2 65535) = false) (m : ElementMap) (tr : List Cdb) :
    ((fetch_element_map dev m tr).2.2).filter p = tr.filter p ++ [allTypesCdb].filter p := by
  simp only [fetch_element_map, execCdb]
  split_ifs <;> dsimp only <;>
    first
    | (rw [paginateSlots_filter dev 65535 p hst, rms_trace]
       simp [List.filter_append, List.filter_cons, hms])
    | (rw [rms_trace]
       simp [List.filter_append, List.filter_cons, hms])
    | simp [List.filter_append]

theorem parse_slots_acc (buf : List Nat) (len : Nat) (m : ElementMap) :
    (parse_element_status_map buf len m).2.slots =
      m.slots ++ (parse_element_status_map buf len ElementMap.empty).2.slots := by
  rw [parse_element_status_map_acc buf len m]
  rfl

/-- The storage pagination loop appends a storage list that does not depend
on the map it starts from, and its trace does not depend on it either: the
loop's actual storage discovery is the one performed from an empty map. -/
theorem paginateSlots_slots_acc (dev : Device) (alloc : Nat) :
    ∀ fuel s rem tr m,
      (paginateSlots dev alloc s rem m tr fuel).1.slots =
        m.slots ++ (paginateSlots dev alloc s rem ElementMap.empty tr fuel).1.slots ∧
      (paginateSlots dev alloc s rem m tr fuel).2 =
        (paginateSlots dev alloc s rem ElementMap.empty tr fuel).2
  | 0, s, rem, tr, m => by simp [paginateSlots, ElementMap.empty]
  | fuel + 1, s, rem, tr, m => by
    simp only [paginateSlots, execCdb]
    by_cases h0 : rem = 0
    · simp only [if_pos h0]
      exact ⟨by simp [ElementMap.empty], trivial⟩
    · simp only [if_neg h0]
      by_cases hrc : (dev tr (Cdb.readES 2 s rem alloc)).1 ≠ 0
      · simp only [if_pos hrc]
        exact ⟨by simp [ElementMap.empty], trivial⟩
      · simp only [if_neg hrc]
        by_cases hrep : be24 (dev tr (Cdb.readES 2 s rem alloc)).2 5 = 0
        · simp only [if_pos hrep]
          exact ⟨by simp [ElementMap.empty], trivial⟩
        · simp only [if_neg hrep]
          rw [parse_slots_acc _ _ m]
          have hz : (ElementMap.empty.slots : List Nat) = [] := rfl
          simp only [hz, List.nil_append, List.length_append, Nat.add_sub_cancel_left,
            List.length_nil, Nat.sub_zero]
          by_cases hadd :
              (parse_element_status_map (dev tr (Cdb.readES 2 s rem alloc)).2
                (if be24 (dev tr (Cdb.readES 2 s rem alloc)).2 5 + 8 ≤ alloc
                 then be24 (dev tr (Cdb.readES 2 s rem alloc)).2 5 + 8
                 else alloc) ElementMap.empty).2.slots.length = 0
          · simp only [if_pos hadd]
            exact ⟨parse_slots_acc _ _ m, trivial⟩
          · simp only [if_neg hadd]
            by_cases hle :
                rem ≤ (parse_element_status_map (dev tr (Cdb.readES 2 s rem alloc)).2
                  (if be24 (dev tr (Cdb.readES 2 s rem alloc)).2 5 + 8 ≤ alloc
                   then be24 (dev tr (Cdb.readES 2 s rem alloc)).2 5 + 8
                   else alloc) ElementMap.empty).2.slots.length
            · simp only [if_pos hle]
              exact ⟨parse_slots_acc _ _ m, trivial⟩
            · simp only [if_neg hle]
              constructor
              · rw [(paginateSlots_slots_acc dev alloc fuel _ _ _
                  (parse_element_status_map _ _ m).2).1,
                  (paginateSlots_slots_acc dev alloc fuel _ _ _
                  (parse_element_status_map _ _ ElementMap.empty).2).1,
                  parse_slots_acc _ _ m, List.append_assoc]
              · rw [(paginateSlots_slots_acc dev alloc fuel _ _ _
                  (parse_element_status_map _ _ m).2).2,
                  (paginateSlots_slots_acc dev alloc fuel _ _ _
                  (parse_element_status_map _ _ ElementMap.empty).2).2]

/-- `fetch_element_map` never issues a MOVE MEDIUM command. -/
theorem fetch_moves (dev : Device) (m : ElementMap) (tr : List Cdb) :
    ((fetch_element_map dev m tr).2.2).filter isMove = tr.filter isMove := by
  have h := fetch_filter dev isMove rfl (fun _ _ => rfl) m tr
  simpa [allTypesCdb, isMove] using h

/-- `fetch_element_map` issues the all-types READ ELEMENT STATUS exactly
once (beyond whatever the initial trace contained). -/
theorem fetch_allRES (dev : Device) (m : ElementMap) (tr : List Cdb) :
    ((fetch_element_map dev m tr).2.2).filter isAllTypesRES =
      tr.filter isAllTypesRES ++ [allTypesCdb] := by
  have h := fetch_filter dev isAllTypesRES rfl (fun _ _ => rfl) m tr
  simpa [allTypesCdb, isAllTypesRES] using h

/-- Every command in `fetch_element_map`'s trace beyond the initial one is
the all-types query, the MODE SENSE, or a storage-only READ ELEMENT STATUS
with the fixed 65535-byte allocation. -/
theorem fetch_shape (dev : Device) (m : ElementMap) (tr : List Cdb) (c : Cdb) :
    c ∈ (fetch_element_map dev m tr).2.2 →
      c ∈ tr ∨ c = allTypesCdb ∨ c = modeSenseCdb ∨ ∃ s2 r2, c = Cdb.readES 2 s2 r2 65535 := by
  simp only [fetch_element_map, execCdb]
  have hbase : ∀ t0 : List Cdb, c ∈ t0 ++ [allTypesCdb] ++ [modeSenseCdb] →
      c ∈ t0 ∨ c = allTypesCdb ∨ c = modeSenseCdb ∨ ∃ s2 r2, c = Cdb.readES 2 s2 r2 65535 := by
    intro t0 h
    rcases List.mem_append.1 h with h | h
    · rcases List.mem_append.1 h with h | h
      · exact Or.inl h
      · exact Or.inr (Or.inl (List.mem_singleton.1 h))
    · exact Or.inr (Or.inr (Or.inl (List.mem_singleton.1 h)))
  split_ifs <;> intro h <;>
    first
    | exact (List.mem_append.1 h).elim (fun h2 => Or.inl h2)
        (fun h2 => Or.inr (Or.inl (List.mem_singleton.1 h2)))
    | exact (paginateSlots_shape dev 65535 _ _ _ _ _ c h).elim
        (fun h2 => hbase tr (by rw [rms_trace] at h2; exact h2))
        (fun h2 => Or.inr (Or.inr (Or.inr h2)))
    | exact hbase tr (by rw [rms_trace] at h; exact h)

/-- MOVE MEDIUM commands never occur in a trace whose move-filter is empty. -/
theorem not_move_mem (tr : List Cdb) (h : tr.filter isMove = []) (t s d : Nat) :
    Cdb.moveMedium t s d ∉ tr := by
  intro hmem
  have hf : Cdb.moveMedium t s d ∈ tr.filter isMove := List.mem_filter.2 ⟨hmem, rfl⟩
  rw [h] at hf
  exact absurd hf (List.not_mem_nil _)

/-- C8: the two source files' element-status flag decoders are not
equivalent: mchanger.c's `print_flags` decodes "full" as bit 0x01 of the
flag byte while xl1b_changer.c's decodes it as bit 0x20, so the flag bytes
0x20 and 0x01 get opposite "full" values from the two implementations,
while both decode "exception" as bit 0x80 on every flag byte. -/
theorem C8_full_bit_disagreement :
    (MchangerFile.print_flags 32).2 = false ∧ (Xl1bFile.print_flags 32).2 = true ∧
    (MchangerFile.print_flags 1).2 = true ∧ (Xl1bFile.print_flags 1).2 = false ∧
    (MchangerFile.print_flags 128).1 = true ∧ (Xl1bFile.print_flags 128).1 = true ∧
    (MchangerFile.print_flags 127).1 = false ∧
    ∀ flags, (MchangerFile.print_flags flags).1 = (Xl1bFile.print_flags flags).1 := by
  exact ⟨rfl, rfl, rfl, rfl, rfl, rfl, rfl, fun flags => rfl⟩

/-- C9: parsing an element-status buffer is deterministic and only appends:
the result of `parse_element_status_map` on any starting map is the
starting map's per-role lists followed by the lists obtained from a fresh
empty map, so two parses of the same bytes into fresh empty maps yield
identical per-role address lists (same stop conditions, same skipping of
all-zero storage descriptors at address 0). -/
theorem C9_parse_idempotent (buf : List Nat) (len : Nat) (m : ElementMap) :
    (parse_element_status_map buf len m).2 =
      mapAppend m (parse_element_status_map buf len ElementMap.empty).2 :=
  parse_element_status_map_acc buf len m

/-- C10 (implicit): every successful `mchanger_get_slot_status` or
`mchanger_get_drive_status` returns a public status whose exception field
is `false`, whatever the device's element-status response bytes were. -/
theorem C10_except_always_false (dev : Device) (slot drive : Int)
    (st st2 : MChangerElementStatus) :
    ((mchanger_get_slot_status dev slot).2.1 = some st → st.except = false) ∧
    ((mchanger_get_drive_status dev drive).2.1 = some st2 → st2.except = false) := by
  constructor
  · intro h
    simp only [mchanger_get_slot_status] at h
    split_ifs at h
    dsimp only at h
    rw [← Option.some.inj h]
  · intro h
    simp only [mchanger_get_drive_status] at h
    split_ifs at h
    dsimp only at h
    rw [← Option.some.inj h]

/-- Witness for C10: on a concrete device whose slot descriptor has the
exception bit (0x80) set, the returned statuses still carry
`except = false`. -/
theorem C10_witness :
    (mchanger_get_slot_status devC10 1).2.1 =
      some ⟨4096, true, false, false, 0⟩ ∧
    (⟨4096, true, false, false, 0⟩ : MChangerElementStatus).except = false ∧
    (mchanger_get_drive_status devC10 1).2.1 = some ⟨512, false, false, false, 0⟩ ∧
    (⟨512, false, false, false, 0⟩ : MChangerElementStatus).except = false := by
  refine ⟨by decide, ?_, by decide, ?_⟩
  · exact (C10_except_always_false devC10 1 1 ⟨4096, true, false, false, 0⟩
      ⟨512, false, false, false, 0⟩).1 (by decide)
  · exact (C10_except_always_false devC10 1 1 ⟨4096, true, false, false, 0⟩
      ⟨512, false, false, false, 0⟩).2 (by decide)

/-- Counterexample for C1: MODE SENSE declares first = 0x1000, count = 2;
pagination discovers the single (non-contiguous) address 0x1001; the
builder then appends addresses starting at `first + count = 0x1001`, not at
`last_returned + 1 = 0x1002`, producing the duplicated list
[0x1001, 0x1001] instead of a gap- and duplicate-free span. -/
theorem C1_counterexample :
    (read_mode_sense_element devC1 [allTypesCdb]).2.1.first_storage = 4096 ∧
    (read_mode_sense_element devC1 [allTypesCdb]).2.1.num_storage = 2 ∧
    (fetch_element_map devC1 ElementMap.empty []).2.1.slots = [4097, 4097] ∧
    ¬ (fetch_element_map devC1 ElementMap.empty []).2.1.slots.Nodup := by decide

/-- C1 (amended): when the discovered storage list is shorter than the
declared count N and `first + N` does not overflow 16 bits, the quirk
compensation appends exactly `N - discovered` consecutive addresses
starting at `first + discovered`, giving a final list of exactly N
entries; these coincide with `last_returned + 1 .. first + N - 1` — with
no gaps or duplicates — exactly when the discovered list is the contiguous
run `first .. first + discovered - 1`. -/
theorem C1_fill_missing (first num : Nat) (slots : List Nat)
    (h1 : slots.length < num) (h2 : first + num < 65536) :
    fillMissingSlots first num slots =
      slots ++ List.range' (first + slots.length) (num - slots.length) ∧
    (fillMissingSlots first num slots).length = num ∧
    (slots = List.range' first slots.length →
      fillMissingSlots first num slots = List.range' first num ∧
      (fillMissingSlots first num slots).Nodup) := by
  have hnum : num < 65536 := lt_of_le_of_lt (Nat.le_add_left _ _) h2
  have hlen : slots.length % 65536 = slots.length := Nat.mod_eq_of_lt (h1.trans hnum)
  have hfl : (first + slots.length) % 65536 = first + slots.length :=
    Nat.mod_eq_of_lt (by omega)
  have hfn : (first + num) % 65536 = first + num := Nat.mod_eq_of_lt h2
  have hmain : fillMissingSlots first num slots =
      slots ++ List.range' (first + slots.length) (num - slots.length) := by
    unfold fillMissingSlots
    rw [if_pos h1, hlen, hfl, hfn]
    dsimp only
    have hd : first + num - (first + slots.length) = num - slots.length := by omega
    rw [hd]
  refine ⟨hmain, ?_, ?_⟩
  · rw [hmain]
    simp only [List.length_append, List.length_range']
    omega
  · intro hc
    have hfull : fillMissingSlots first num slots = List.range' first num := by
      rw [hmain]
      conv_lhs => rw [hc]
      rw [List.length_range']
      have hr := List.range'_append first slots.length (num - slots.length) 1
      simp only [one_mul, Nat.mul_one] at hr
      rw [hr]
      have hd2 : num - slots.length + slots.length = num := by omega
      rw [hd2]
    exact ⟨hfull, by rw [hfull]; exact List.nodup_range' _ _⟩

/-- Witness for C1 (amended): first = 0x1000, N = 4, discovered
[0x1000, 0x1001]: the builder appends 0x1002, 0x1003, yielding the full
contiguous duplicate-free run of 4 addresses. -/
theorem C1_witness :
    fillMissingSlots 4096 4 [4096, 4097] = [4096, 4097] ++ List.range' 4098 2 ∧
    (fillMissingSlots 4096 4 [4096, 4097]).length = 4 ∧
    fillMissingSlots 4096 4 [4096, 4097] = List.range' 4096 4 ∧
    (fillMissingSlots 4096 4 [4096, 4097]).Nodup := by
  have h := C1_fill_missing 4096 4 [4096, 4097] (by decide) (by decide)
  have h3 := h.2.2 (by decide)
  exact ⟨h.1, h.2.1, h3.1, h3.2⟩

/-- Counterexample for C7: the all-types response header declares a report
byte count of 70000, exceeding the 65535-byte allocation, yet
`fetch_element_map` issues no re-sized READ ELEMENT STATUS: its trace is
exactly the single all-types query followed by the MODE SENSE. -/
theorem C7_counterexample :
    be24 ((devC7 [] allTypesCdb).2) 5 = 70000 ∧
    (fetch_element_map devC7 ElementMap.empty []).2.2 = [allTypesCdb, modeSenseCdb] := by
  decide

/-- C7 (amended): mchanger.c's builder issues the all-types READ ELEMENT
STATUS exactly once with the fixed 65535-byte allocation and never
re-issues it with a response-sized allocation: every command in its trace
is that single all-types query, the MODE SENSE, or a storage-only READ
ELEMENT STATUS, all with fixed allocations. -/
theorem C7_no_reissue (dev : Device) :
    ((fetch_element_map dev ElementMap.empty []).2.2).filter isAllTypesRES = [allTypesCdb] ∧
    ∀ c ∈ (fetch_element_map dev ElementMap.empty []).2.2,
      c = allTypesCdb ∨ c = modeSenseCdb ∨ ∃ s2 r2, c = Cdb.readES 2 s2 r2 65535 := by
  constructor
  · have h := fetch_allRES dev ElementMap.empty []
    simpa using h
  · intro c hc
    rcases fetch_shape dev ElementMap.empty [] c hc with h | h
    · exact absurd h (List.not_mem_nil c)
    · exact h

/-- Witness for C7 (amended), instantiated on the concrete device that
over-declares its report byte count. -/
theorem C7_witness :
    ((fetch_element_map devC7 ElementMap.empty []).2.2).filter isAllTypesRES = [allTypesCdb] ∧
    (allTypesCdb = allTypesCdb ∨ allTypesCdb = modeSenseCdb ∨
      ∃ s2 r2, allTypesCdb = Cdb.readES 2 s2 r2 65535) := by
  exact ⟨(C7_no_reissue devC7).1, (C7_no_reissue devC7).2 allTypesCdb (by decide)⟩


/-- C4 (amended): `mchanger_load_slot`, `mchanger_unload_drive` and
`mchanger_eject` return `MCHANGER_ERR_INVALID` both for indices below 1
and for indices above the discovered counts; for indices below 1 no SCSI
command at all is issued, but for indices above the discovered counts the
map-discovery commands (READ ELEMENT STATUS / MODE SENSE) have already
been issued — only MOVE MEDIUM is guaranteed absent. -/
theorem C4_out_of_range (dev : Device) (slot drive : Int) :
    ((slot < 1 ∨ drive < 1) →
      mchanger_load_slot dev slot drive = (MCHANGER_ERR_INVALID, []) ∧
      mchanger_unload_drive dev slot drive = (MCHANGER_ERR_INVALID, []) ∧
      mchanger_eject dev slot drive = (MCHANGER_ERR_INVALID, [])) ∧
    (∀ m tr0, fetch_element_map dev ElementMap.empty [] = (0, m, tr0) →
      1 ≤ slot → 1 ≤ drive →
      ((m.slots.length : Int) < slot ∨ (m.drives.length : Int) < drive) →
      mchanger_load_slot dev slot drive = (MCHANGER_ERR_INVALID, tr0) ∧
      mchanger_unload_drive dev slot drive = (MCHANGER_ERR_INVALID, tr0) ∧
      mchanger_eject dev slot drive = (MCHANGER_ERR_INVALID, tr0) ∧
      tr0.filter isMove = []) := by
  constructor
  · intro h
    refine ⟨?_, ?_, ?_⟩
    · simp only [mchanger_load_slot]
      rw [if_pos h]
    · simp only [mchanger_unload_drive]
      rw [if_pos h]
    · simp only [mchanger_eject]
      rw [if_pos h]
  · intro m tr0 hmap hs hd hrange
    have hA : ¬(slot < 1 ∨ drive < 1) := by omega
    have hmoves : tr0.filter isMove = [] := by
      have hm := fetch_moves dev ElementMap.empty []
      rw [hmap] at hm
      simpa using hm
    refine ⟨?_, ?_, ?_, hmoves⟩
    · simp only [mchanger_load_slot, hmap]
      rw [if_neg hA]
      rw [if_neg (show ¬((0 : Nat) ≠ 0) by simp), if_pos hrange]
    · simp only [mchanger_unload_drive, hmap]
      rw [if_neg hA]
      rw [if_neg (show ¬((0 : Nat) ≠ 0) by simp), if_pos hrange]
    · simp only [mchanger_eject, hmap]
      rw [if_neg hA]
      have hrange2 : (m.slots.length : Int) < slot ∨ (m.drives.length : Int) < drive ∨
          m.ie.length = 0 := by tauto
      rw [if_neg (show ¬((0 : Nat) ≠ 0) by simp), if_pos hrange2]

/-- C2 (amended): when the status read reports the target slot empty and
the drive full with a valid source equal to the slot's address,
`mchanger_load_slot` succeeds as a no-op: it returns `MCHANGER_OK` with a
trace containing no MOVE MEDIUM command.  (The slot-empty condition is
required: see the counterexample.) -/
theorem C2_load_noop (dev : Device) (slot drive : Int) (m : ElementMap) (tr0 : List Cdb)
    (dst sst : ElementStatus) (tr1 : List Cdb)
    (h1 : 1 ≤ slot) (h2 : 1 ≤ drive)
    (hmap : fetch_element_map dev ElementMap.empty [] = (0, m, tr0))
    (hs : slot ≤ (m.slots.length : Int)) (hd : drive ≤ (m.drives.length : Int))
    (hst : read_element_status_info dev tr0 (m.drives.getD (drive.toNat - 1) 0)
      (m.slots.getD (slot.toNat - 1) 0) = (0, dst, sst, tr1))
    (hslot : sst.full = false) (hfull : dst.full = true) (hv : dst.valid_src = true)
    (hsrc : dst.src_addr = m.slots.getD (slot.toNat - 1) 0) :
    mchanger_load_slot dev slot drive = (MCHANGER_OK, tr1) ∧ tr1.filter isMove = [] := by
  have hA : ¬(slot < 1 ∨ drive < 1) := by omega
  have hB : ¬((m.slots.length : Int) < slot ∨ (m.drives.length : Int) < drive) := by omega
  constructor
  · simp only [mchanger_load_slot, hmap]
    rw [if_neg hA, if_neg (show ¬((0 : Nat) ≠ 0) by simp), if_neg hB, hst]
    try dsimp only
    rw [if_neg (show ¬((0 : Nat) ≠ 0) by simp), if_pos ⟨hslot, hfull, hv, hsrc⟩]
  · have htr := resinfo_trace dev tr0 (m.drives.getD (drive.toNat - 1) 0)
      (m.slots.getD (slot.toNat - 1) 0)
    rw [hst] at htr
    dsimp only at htr
    have hmoves : tr0.filter isMove = [] := by
      have hm := fetch_moves dev ElementMap.empty []
      rw [hmap] at hm
      simpa using hm
    rw [htr, List.filter_append, hmoves]
    simp [statusCdb, isMove, List.filter_cons]


/-- C3: when the drive is occupied by a medium recorded as coming from a
different slot, `mchanger_load_slot` issues the unload MOVE MEDIUM
(drive to recorded source) strictly before the load MOVE MEDIUM (slot to
drive): on unload success the trace ends with unload then load (and the
load move occurs nowhere earlier); on unload failure the call returns
`MCHANGER_ERR_SCSI` and the load move is never issued; when the slot is
also empty the call fails Empty with no moves at all. -/
theorem C3_unload_before_load (dev : Device) (slot drive : Int) (m : ElementMap)
    (tr0 : List Cdb) (dst sst : ElementStatus) (tr1 : List Cdb)
    (h1 : 1 ≤ slot) (h2 : 1 ≤ drive)
    (hmap : fetch_element_map dev ElementMap.empty [] = (0, m, tr0))
    (hs : slot ≤ (m.slots.length : Int)) (hd : drive ≤ (m.drives.length : Int))
    (hst : read_element_status_info dev tr0 (m.drives.getD (drive.toNat - 1) 0)
      (m.slots.getD (slot.toNat - 1) 0) = (0, dst, sst, tr1))
    (hfull : dst.full = true) (hv : dst.valid_src = true)
    (hdiff : dst.src_addr ≠ m.slots.getD (slot.toNat - 1) 0) :
    (sst.full = true →
      (dev tr1 (Cdb.moveMedium (m.transports.headD 0) (m.drives.getD (drive.toNat - 1) 0)
        dst.src_addr)).1 = 0 →
      (mchanger_load_slot dev slot drive).2 =
        tr1 ++ [Cdb.moveMedium (m.transports.headD 0) (m.drives.getD (drive.toNat - 1) 0)
          dst.src_addr,
          Cdb.moveMedium (m.transports.headD 0) (m.slots.getD (slot.toNat - 1) 0)
            (m.drives.getD (drive.toNat - 1) 0)] ∧
      Cdb.moveMedium (m.transports.headD 0) (m.slots.getD (slot.toNat - 1) 0)
        (m.drives.getD (drive.toNat - 1) 0) ∉ tr1) ∧
    (sst.full = true →
      (dev tr1 (Cdb.moveMedium (m.transports.headD 0) (m.drives.getD (drive.toNat - 1) 0)
        dst.src_addr)).1 ≠ 0 →
      mchanger_load_slot dev slot drive =
        (MCHANGER_ERR_SCSI, tr1 ++ [Cdb.moveMedium (m.transports.headD 0)
          (m.drives.getD (drive.toNat - 1) 0) dst.src_addr]) ∧
      Cdb.moveMedium (m.transports.headD 0) (m.slots.getD (slot.toNat - 1) 0)
        (m.drives.getD (drive.toNat - 1) 0) ∉
        tr1 ++ [Cdb.moveMedium (m.transports.headD 0) (m.drives.getD (drive.toNat - 1) 0)
          dst.src_addr]) ∧
    (sst.full = false →
      mchanger_load_slot dev slot drive = (MCHANGER_ERR_EMPTY, tr1) ∧
      Cdb.moveMedium (m.transports.headD 0) (m.slots.getD (slot.toNat - 1) 0)
        (m.drives.getD (drive.toNat - 1) 0) ∉ tr1) := by
  have hA : ¬(slot < 1 ∨ drive < 1) := by omega
  have hB : ¬((m.slots.length : Int) < slot ∨ (m.drives.length : Int) < drive) := by omega
  have htr := resinfo_trace dev tr0 (m.drives.getD (drive.toNat - 1) 0)
    (m.slots.getD (slot.toNat - 1) 0)
  rw [hst] at htr
  dsimp only at htr
  have hmoves0 : tr0.filter isMove = [] := by
    have hm := fetch_moves dev ElementMap.empty []
    rw [hmap] at hm
    simpa using hm
  have hmoves1 : tr1.filter isMove = [] := by
    rw [htr, List.filter_append, hmoves0]
    simp [statusCdb, isMove, List.filter_cons]
  have hload_notin : Cdb.moveMedium (m.transports.headD 0) (m.slots.getD (slot.toNat - 1) 0)
      (m.drives.getD (drive.toNat - 1) 0) ∉ tr1 := not_move_mem tr1 hmoves1 _ _ _
  have hne : Cdb.moveMedium (m.transports.headD 0) (m.slots.getD (slot.toNat - 1) 0)
      (m.drives.getD (drive.toNat - 1) 0) ≠
      Cdb.moveMedium (m.transports.headD 0) (m.drives.getD (drive.toNat - 1) 0)
        dst.src_addr := by
    intro he
    have h3 := Cdb.moveMedium.inj he
    exact hdiff (h3.2.2.symm.trans h3.2.1.symm)
  refine ⟨?_, ?_, ?_⟩
  · intro hsf hok
    refine ⟨?_, hload_notin⟩
    simp only [mchanger_load_slot, execCdb, hmap]
    rw [if_neg hA, if_neg (show ¬((0 : Nat) ≠ 0) by simp), if_neg hB, hst]
    try dsimp only
    rw [if_neg (show ¬((0 : Nat) ≠ 0) by simp)]
    rw [if_neg (show ¬(sst.full = false ∧ dst.full = true ∧ dst.valid_src = true ∧
        dst.src_addr = m.slots.getD (slot.toNat - 1) 0) by
      intro hc
      rw [hsf] at hc
      simp at hc)]
    rw [if_neg (show ¬(sst.full = false ∧ ¬(dst.full = true ∧ dst.valid_src = true ∧
        dst.src_addr = m.slots.getD (slot.toNat - 1) 0)) by
      intro hc
      rw [hsf] at hc
      simp at hc)]
    rw [if_pos hfull, if_pos hv]
    try dsimp only
    rw [if_neg (show ¬((dev tr1 (Cdb.moveMedium (m.transports.headD 0)
        (m.drives.getD (drive.toNat - 1) 0) dst.src_addr)).1 ≠ 0) from fun hc => hc hok)]
    simp [execCdb]
  · intro hsf hfail
    refine ⟨?_, ?_⟩
    · simp only [mchanger_load_slot, execCdb, hmap]
      rw [if_neg hA, if_neg (show ¬((0 : Nat) ≠ 0) by simp), if_neg hB, hst]
      try dsimp only
      rw [if_neg (show ¬((0 : Nat) ≠ 0) by simp)]
      rw [if_neg (show ¬(sst.full = false ∧ dst.full = true ∧ dst.valid_src = true ∧
          dst.src_addr = m.slots.getD (slot.toNat - 1) 0) by
        intro hc
        rw [hsf] at hc
        simp at hc)]
      rw [if_neg (show ¬(sst.full = false ∧ ¬(dst.full = true ∧ dst.valid_src = true ∧
          dst.src_addr = m.slots.getD (slot.toNat - 1) 0)) by
        intro hc
        rw [hsf] at hc
        simp at hc)]
      rw [if_pos hfull, if_pos hv]
      try dsimp only
      rw [if_pos hfail]
    · intro hmem
      rcases List.mem_append.1 hmem with hmem | hmem
      · exact hload_notin hmem
      · exact hne (List.mem_singleton.1 hmem)
  · intro hsf
    refine ⟨?_, hload_notin⟩
    simp only [mchanger_load_slot, execCdb, hmap]
    rw [if_neg hA, if_neg (show ¬((0 : Nat) ≠ 0) by simp), if_neg hB, hst]
    try dsimp only
    rw [if_neg (show ¬((0 : Nat) ≠ 0) by simp)]
    rw [if_neg (show ¬(sst.full = false ∧ dst.full = true ∧ dst.valid_src = true ∧
        dst.src_addr = m.slots.getD (slot.toNat - 1) 0) from
      fun hc => hdiff hc.2.2.2)]
    rw [if_pos (show sst.full = false ∧ ¬(dst.full = true ∧ dst.valid_src = true ∧
        dst.src_addr = m.slots.getD (slot.toNat - 1) 0) from
      ⟨hsf, fun hc => hdiff hc.2.2⟩)]



/-- C5 (amended): the CLI eject command (modelled by `cmd_eject`) fails
with rc 1 and issues no MOVE MEDIUM when the slot is empty and the medium
is not in the drive (drive empty, or drive full with a valid source
different from the slot address).  The library function `mchanger_eject`
does not implement this check: see the counterexample. -/
theorem C5_cli_eject_empty (dev : Device) (slotIndex driveIndex : Nat) (m : ElementMap)
    (tr0 : List Cdb) (dst sst : ElementStatus) (tr1 : List Cdb)
    (hmap : fetch_element_map dev ElementMap.empty [] = (0, m, tr0))
    (hs1 : slotIndex ≠ 0) (hs2 : slotIndex ≤ m.slots.length)
    (hd1 : driveIndex ≠ 0) (hd2 : driveIndex ≤ m.drives.length)
    (hie : m.ie.length ≠ 0) (htp : m.transports.length ≠ 0)
    (hst : read_element_status_info dev tr0 (m.drives.getD (driveIndex - 1) 0)
      (m.slots.getD (slotIndex - 1) 0) = (0, dst, sst, tr1))
    (hslot : sst.full = false)
    (hnd : dst.full = false ∨ (dst.valid_src = true ∧
      dst.src_addr ≠ m.slots.getD (slotIndex - 1) 0)) :
    cmd_eject dev slotIndex driveIndex = (1, tr1) ∧ tr1.filter isMove = [] := by
  have hmoves0 : tr0.filter isMove = [] := by
    have hm := fetch_moves dev ElementMap.empty []
    rw [hmap] at hm
    simpa using hm
  have htr := resinfo_trace dev tr0 (m.drives.getD (driveIndex - 1) 0)
    (m.slots.getD (slotIndex - 1) 0)
  rw [hst] at htr
  dsimp only at htr
  have hmoves1 : tr1.filter isMove = [] := by
    rw [htr, List.filter_append, hmoves0]
    simp [statusCdb, isMove, List.filter_cons]
  refine ⟨?_, hmoves1⟩
  simp only [cmd_eject, execCdb, hmap]
  rw [if_neg (show ¬((0 : Nat) ≠ 0) by simp)]
  rw [if_neg (show ¬(slotIndex = 0 ∨ m.slots.length < slotIndex) by omega)]
  rw [if_neg (show ¬(driveIndex = 0 ∨ m.drives.length < driveIndex) by omega)]
  rw [if_neg hie, if_neg htp, hst]
  try dsimp only
  rw [if_neg (show ¬((0 : Nat) ≠ 0) by simp)]
  rw [if_pos (show sst.full = false ∧ ¬(sst.full = false ∧ dst.full = true ∧
      (dst.valid_src = false ∨ dst.src_addr = m.slots.getD (slotIndex - 1) 0)) by
    refine ⟨hslot, ?_⟩
    intro hc
    rcases hnd with hnd | hnd
    · rw [hnd] at hc
      simp at hc
    · rcases hc.2.2 with hc2 | hc2
      · rw [hnd.1] at hc2
        simp at hc2
      · exact hnd.2 hc2)]


/-- C6 (amended): the storage list from the all-types query is discarded
and rebuilt from scratch (storage-only pagination started from an empty
map, then quirk fill-in) whenever MODE SENSE page 0x1D succeeds with a
nonzero declared storage count — regardless of how many storage elements
the all-types query returned; it is kept unchanged exactly when MODE
SENSE fails or declares zero storage elements. -/
theorem C6_unconditional_rebuild (dev : Device) :
    (∀ a tr2, (dev [] allTypesCdb).1 = 0 → be24 (dev [] allTypesCdb).2 5 ≠ 0 →
      read_mode_sense_element dev [allTypesCdb] = (0, a, tr2) → 0 < a.num_storage →
      (fetch_element_map dev ElementMap.empty []).2.1.slots =
        fillMissingSlots a.first_storage a.num_storage
          ((paginateSlots dev 65535 a.first_storage a.num_storage ElementMap.empty tr2
            a.num_storage).1.slots)) ∧
    (∀ rc a tr2, (dev [] allTypesCdb).1 = 0 → be24 (dev [] allTypesCdb).2 5 ≠ 0 →
      read_mode_sense_element dev [allTypesCdb] = (rc, a, tr2) →
      (rc ≠ 0 ∨ a.num_storage = 0) →
      (fetch_element_map dev ElementMap.empty []).2.1.slots =
        (parse_element_status_map (dev [] allTypesCdb).2
          (if be24 (dev [] allTypesCdb).2 5 + 8 ≤ 65535 then be24 (dev [] allTypesCdb).2 5 + 8
           else 65535) ElementMap.empty).2.slots) := by
  constructor
  · intro a tr2 hrc hrb hms hn
    simp only [fetch_element_map, execCdb, List.nil_append]
    rw [if_neg (show ¬((dev [] allTypesCdb).1 ≠ 0) from fun hc => hc hrc)]
    rw [if_neg (show ¬(be24 (dev [] allTypesCdb).2 5 = 0) from hrb)]
    rw [hms]
    try dsimp only
    rw [if_pos (show (0 : Nat) = 0 ∧ 0 < a.num_storage from ⟨rfl, hn⟩)]
    try dsimp only
    rw [(paginateSlots_slots_acc dev 65535 a.num_storage a.first_storage a.num_storage tr2 _).1]
    simp
  · intro rc a tr2 hrc hrb hms hdis
    simp only [fetch_element_map, execCdb, List.nil_append]
    rw [if_neg (show ¬((dev [] allTypesCdb).1 ≠ 0) from fun hc => hc hrc)]
    rw [if_neg (show ¬(be24 (dev [] allTypesCdb).2 5 = 0) from hrb)]
    rw [hms]
    try dsimp only
    rw [if_neg (show ¬(rc = 0 ∧ 0 < a.num_storage) by
      intro hc
      rcases hdis with hdis | hdis
      · exact hdis hc.1
      · omega)]


/-- Counterexample for C2: a drive status with full = true, valid source =
true and source = 0x1000 (the target slot's address) while the slot also
reports full: the call still returns success but issues two MOVE MEDIUM
commands instead of zero. -/
theorem C2_counterexample :
    (read_element_status_info devC2x [allTypesCdb, modeSenseCdb] 512 4096).2.1 =
      ⟨512, true, true, 4096⟩ ∧
    mchanger_load_slot devC2x 1 1 =
      (MCHANGER_OK, [allTypesCdb, modeSenseCdb, statusCdb,
        Cdb.moveMedium 1 512 4096, Cdb.moveMedium 1 4096 512]) := by decide

/-- Witness for C2 (amended) on a concrete device: drive full from slot
0x1000, slot empty: success with no MOVE MEDIUM in the trace. -/
theorem C2_witness :
    mchanger_load_slot devC2w 1 1 = (MCHANGER_OK, [allTypesCdb, modeSenseCdb, statusCdb]) ∧
    ([allTypesCdb, modeSenseCdb, statusCdb] : List Cdb).filter isMove = [] := by
  exact C2_load_noop devC2w 1 1 ⟨[1], [4096, 4097], [768], [512]⟩ [allTypesCdb, modeSenseCdb]
    ⟨512, true, true, 4096⟩ ⟨4096, false, false, 0⟩ [allTypesCdb, modeSenseCdb, statusCdb]
    (by decide) (by decide) (by decide) (by decide) (by decide) (by decide)
    (by decide) (by decide) (by decide) (by decide)

/-- Witness for C3 on a concrete device: drive full with source 0x1001,
target slot 1 (0x1000) full: the unload to 0x1001 precedes the load
0x1000 to drive, and the load move appears nowhere earlier. -/
theorem C3_witness :
    (mchanger_load_slot devC3 1 1).2 =
      [allTypesCdb, modeSenseCdb, statusCdb] ++
        [Cdb.moveMedium 1 512 4097, Cdb.moveMedium 1 4096 512] ∧
    Cdb.moveMedium 1 4096 512 ∉ ([allTypesCdb, modeSenseCdb, statusCdb] : List Cdb) := by
  have h := C3_unload_before_load devC3 1 1 ⟨[1], [4096, 4097], [768], [512]⟩
    [allTypesCdb, modeSenseCdb] ⟨512, true, true, 4097⟩ ⟨4096, true, false, 0⟩
    [allTypesCdb, modeSenseCdb, statusCdb] (by decide) (by decide) (by decide) (by decide)
    (by decide) (by decide) (by decide) (by decide) (by decide)
  exact h.1 (by decide) (by decide)

/-- Counterexample for C4: slot index 5 against a map with 2 slots returns
`MCHANGER_ERR_INVALID`, but the trace already contains SCSI commands (the
discovery READ ELEMENT STATUS and MODE SENSE), contradicting "without
issuing any SCSI command". -/
theorem C4_counterexample :
    mchanger_load_slot devEmptyStatus 5 1 =
      (MCHANGER_ERR_INVALID, [allTypesCdb, modeSenseCdb]) ∧
    ([allTypesCdb, modeSenseCdb] : List Cdb) ≠ [] := by decide

/-- Witness for C4 (amended): index 0 yields InvalidArgument with an empty
trace; indices above the discovered counts yield InvalidArgument with
exactly the discovery commands and no MOVE MEDIUM. -/
theorem C4_witness :
    mchanger_load_slot devEmptyStatus 0 1 = (MCHANGER_ERR_INVALID, []) ∧
    mchanger_unload_drive devEmptyStatus 3 7 =
      (MCHANGER_ERR_INVALID, [allTypesCdb, modeSenseCdb]) ∧
    mchanger_eject devEmptyStatus 3 7 = (MCHANGER_ERR_INVALID, [allTypesCdb, modeSenseCdb]) ∧
    ([allTypesCdb, modeSenseCdb] : List Cdb).filter isMove = [] := by
  have ha := (C4_out_of_range devEmptyStatus 0 1).1 (Or.inl (by decide))
  have hb := (C4_out_of_range devEmptyStatus 3 7).2 ⟨[1], [4096, 4097], [768], [512]⟩
    [allTypesCdb, modeSenseCdb] (by decide) (by decide) (by decide) (by decide)
  exact ⟨ha.1, hb.2.1, hb.2.2.1, hb.2.2.2⟩

/-- Counterexample for C5: with the slot empty and the drive empty,
`mchanger_eject` returns `MCHANGER_OK` (not Empty) and issues a MOVE
MEDIUM from the slot to the import/export port. -/
theorem C5_counterexample :
    (read_element_status_info devEmptyStatus [allTypesCdb, modeSenseCdb] 512 4096).2.1.full =
      false ∧
    (read_element_status_info devEmptyStatus [allTypesCdb, modeSenseCdb] 512 4096).2.2.1.full =
      false ∧
    mchanger_eject devEmptyStatus 1 1 =
      (MCHANGER_OK, [allTypesCdb, modeSenseCdb, statusCdb, Cdb.moveMedium 1 4096 768]) := by
  decide

/-- Witness for C5 (amended) on a concrete device with slot and drive both
empty: the CLI eject fails with rc 1 and no MOVE MEDIUM. -/
theorem C5_witness :
    cmd_eject devEmptyStatus 1 1 = (1, [allTypesCdb, modeSenseCdb, statusCdb]) ∧
    ([allTypesCdb, modeSenseCdb, statusCdb] : List Cdb).filter isMove = [] := by
  exact C5_cli_eject_empty devEmptyStatus 1 1 ⟨[1], [4096, 4097], [768], [512]⟩
    [allTypesCdb, modeSenseCdb] ⟨512, false, false, 0⟩ ⟨4096, false, false, 0⟩
    [allTypesCdb, modeSenseCdb, statusCdb] (by decide) (by decide) (by decide)
    (by decide) (by decide) (by decide) (by decide) (by decide) (by decide)
    (Or.inl (by decide))

/-- Counterexample for C6: the all-types query returns 2 storage elements
(0x1000, 0x1001) while MODE SENSE declares only 1, yet the storage list is
not kept: the builder rebuilds it and ends up with [0x1000]. -/
theorem C6_counterexample :
    (parse_element_status_map (devC6 [] allTypesCdb).2
      (be24 ((devC6 [] allTypesCdb).2) 5 + 8) ElementMap.empty).2.slots = [4096, 4097] ∧
    (read_mode_sense_element devC6 [allTypesCdb]).2.1.num_storage = 1 ∧
    (fetch_element_map devC6 ElementMap.empty []).2.1.slots = [4096] := by decide

/-- Witness for C6 (amended) on a concrete paginating device: the final
storage list equals the rebuild-from-empty pagination plus fill-in,
concretely [0x1000, 0x1001]. -/
theorem C6_witness :
    (fetch_element_map devC6w ElementMap.empty []).2.1.slots =
      fillMissingSlots 4096 2 ((paginateSlots devC6w 65535 4096 2 ElementMap.empty
        [allTypesCdb, modeSenseCdb] 2).1.slots) ∧
    (fetch_element_map devC6w ElementMap.empty []).2.1.slots = [4096, 4097] := by
  refine ⟨?_, by decide⟩
  exact (C6_unconditional_rebuild devC6w).1 ⟨0, 0, 4096, 2, 0, 0, 0, 0⟩
    [allTypesCdb, modeSenseCdb] (by decide) (by decide) (by decide) (by decide)


end MchangerModel
